import Mathlib

/-
Verification of the run-driver generation and execution-control logic of
src/python/lib/makeRunScript.py, and of the training-set construction in
src/python/scoringModelTraining/somatic/bin/evs_learn.py.

The embedding is shallow: the filesystem is an association list from path to
entry, external collaborators (the workflow engine, the resource estimator,
the CSV reader, the random sampler) are function parameters, and each Python
function of interest becomes an executable Lean definition that also records
the trace of externally visible events (unlink, write, chmod, engine
invocation) so that ordering and multiplicity properties can be stated.
-/

namespace Strelka

/-- A filesystem entry: a plain file with contents, a directory, or some
other kind of entry (socket, device, dangling symlink target, ...).  The
third constructor exists because the generated script distinguishes
`os.path.exists` from `os.path.isfile`. -/
inductive FsEntry
  | file (content : String)
  | dir
  | other
deriving DecidableEq, Repr

/-- `os.path.isfile` on an entry known to exist. -/
def FsEntry.isFile : FsEntry → Bool
  | .file _ => true
  | _ => false

/-- The filesystem as a finite map from absolute path to entry. -/
abbrev Fs : Type := List (String × FsEntry)

def fsLookup (fs : Fs) (p : String) : Option FsEntry :=
  match fs with
  | [] => none
  | (q, e) :: rest => if q = p then some e else fsLookup rest p

/-- `os.unlink`. -/
def fsErase (fs : Fs) (p : String) : Fs :=
  match fs with
  | [] => []
  | (q, e) :: rest => if q = p then fsErase rest p else (q, e) :: fsErase rest p

/-- Writing a file (mode "w"): creates or replaces the entry at `p`. -/
def fsSet (fs : Fs) (p : String) (e : FsEntry) : Fs := (p, e) :: fsErase fs p

/-- Python `str.startswith`. -/
def strStartsWith (s pre : String) : Bool := pre.toList.isPrefixOf s.toList

/-- Python `str.endswith`. -/
def strEndsWith (s suf : String) : Bool := suf.toList.isSuffixOf s.toList

/-- `os.path.join a b` for the cases arising here (posix semantics). -/
def pathJoin (a b : String) : String :=
  if strStartsWith b "/" then b
  else if a = "" ∨ strEndsWith a "/" then a ++ b
  else a ++ "/" ++ b

/-- A Python value that is either a string or an integer: the resolved
`options.jobs` and `options.memMb` fields hold either the string
"unlimited" or an int. -/
inductive StrInt
  | s (v : String)
  | i (v : Int)
deriving DecidableEq, Repr

/-- The fields of `flowOptions` read by the generated main
(`getConfigWithPrimaryOptions` is the Config Store collaborator; main only
reads `runDir` and `workDir` from its result). -/
structure FlowOptions where
  runDir : String
  workDir : String
deriving DecidableEq, Repr

/-- The options record returned by `get_run_options` in the generated
script (runScript2). -/
structure RunOptions where
  mode : String
  jobs : StrInt
  memMb : StrInt
  isDryRun : Bool
  isQuiet : Bool
  mailTo : Option (List String)
  schedulerArgList : List String
  resetTasks : List String
deriving DecidableEq, Repr

/-- The full keyword-argument record passed to `wflow.run(...)` by the
generated main (runScript3, lines 240-253 of makeRunScript.py). -/
structure WorkflowRunArgs where
  mode : String
  nCores : StrInt
  memMb : StrInt
  dataDirRoot : String
  mailTo : Option (List String)
  isContinue : String
  isForceContinue : Bool
  isDryRun : Bool
  isQuiet : Bool
  schedulerArgList : List String
  resetTasks : List String
  successMsg : String
  warningLogFile : String
  errorLogFile : String
deriving DecidableEq, Repr

/-- Externally visible events of one execution of the generated main, in
program order. -/
inductive RunEvent
  | unlink (path : String)
  | invokeRun (args : WorkflowRunArgs)
  | writeFile (path : String) (content : String)
deriving DecidableEq, Repr

/-- Whether an event is a write to the given path. -/
def RunEvent.isWriteTo : RunEvent → String → Bool
  | .writeFile p _, q => p == q
  | _, _ => false

/-- How the process ends: `sys.exit code`, or an exception propagating out
of `main`.  In the latter case the Python runtime prints a traceback and
the process exits with status 1. -/
inductive Termination
  | exited (code : Int)
  | raised
deriving DecidableEq, Repr

/-- The OS-visible exit status of the process for each termination shape
(an uncaught Python exception terminates the interpreter with status 1). -/
def Termination.processStatus : Termination → Int
  | .exited c => c
  | .raised => 1

structure MainResult where
  fs : Fs
  events : List RunEvent
  term : Termination

/-- Path of the exit-code marker computed by main:
`os.path.join(flowOptions.runDir, "workflow.exitcode.txt")`. -/
def exitMarkerPath (fo : FlowOptions) : String :=
  pathJoin fo.runDir "workflow.exitcode.txt"

/-- Path of the warning log computed by main. -/
def warningLogPath (fo : FlowOptions) : String :=
  pathJoin fo.runDir "workflow.warning.log.txt"

/-- Path of the error log computed by main. -/
def errorLogPath (fo : FlowOptions) : String :=
  pathJoin fo.runDir "workflow.error.log.txt"

/-- The keyword arguments main passes to `wflow.run`: copied from the
resolved run options and flow options, with the continuation policy written
as the literals `isContinue="Auto"` and `isForceContinue=True`.
`successMsg` is the value returned by the collaborator call
`wflow.getSuccessMessage()`. -/
def mainArgs (ro : RunOptions) (fo : FlowOptions) (successMsg : String) :
    WorkflowRunArgs :=
  { mode := ro.mode
    nCores := ro.jobs
    memMb := ro.memMb
    dataDirRoot := fo.workDir
    mailTo := ro.mailTo
    isContinue := "Auto"
    isForceContinue := true
    isDryRun := ro.isDryRun
    isQuiet := ro.isQuiet
    schedulerArgList := ro.schedulerArgList
    resetTasks := ro.resetTasks
    successMsg := successMsg
    warningLogFile := warningLogPath fo
    errorLogFile := errorLogPath fo }

/-- `retval` after the try block: initialized to 1, replaced by the return
value of `wflow.run` when that call returns, left at 1 when it raises. -/
def mainRetval (runResult : Except Unit Int) : Int :=
  match runResult with
  | .ok v => v
  | .error _ => 1

/-- The tail of main from the `wflow = workflowClassName(flowOptions)` line
on: invoke the engine inside try/finally, write `"%i\n" % retval` to the
exit marker in the finally block, then `sys.exit(retval)` (or let the
exception from `wflow.run` propagate). -/
def mainInvoke (ro : RunOptions) (fo : FlowOptions) (successMsg : String)
    (wrun : WorkflowRunArgs → Except Unit Int) (fs : Fs)
    (pre : List RunEvent) : MainResult :=
  let args := mainArgs ro fo successMsg
  let runResult := wrun args
  let retval := mainRetval runResult
  let content := toString retval ++ "\n"
  { fs := fsSet fs (exitMarkerPath fo) (.file content)
    events := pre ++ [.invokeRun args, .writeFile (exitMarkerPath fo) content]
    term := match runResult with
            | .ok v => .exited v
            | .error _ => .raised }

/-- The generated `main` (runScript3), starting after `get_run_options` and
`getConfigWithPrimaryOptions` have produced `ro` and `fo`: check the
exit-code marker path (raise if a non-file entry is there, unlink a stale
file), then run the workflow under the try/finally exit-marker contract.
The engine call is the collaborator `wrun`; `Except.error` means
`wflow.run` raised. -/
def main (ro : RunOptions) (fo : FlowOptions) (successMsg : String)
    (wrun : WorkflowRunArgs → Except Unit Int) (fs0 : Fs) : MainResult :=
  let exitpath := exitMarkerPath fo
  match fsLookup fs0 exitpath with
  | some (FsEntry.file _) =>
      mainInvoke ro fo successMsg wrun (fsErase fs0 exitpath)
        [.unlink exitpath]
  | some _ => { fs := fs0, events := [], term := .raised }
  | none => mainInvoke ro fo successMsg wrun fs0 []

theorem fsLookup_fsSet (fs : Fs) (p : String) (e : FsEntry) :
    fsLookup (fsSet fs p e) p = some e := by
  simp [fsSet, fsLookup]

theorem main_eq_of_none (ro : RunOptions) (fo : FlowOptions) (sm : String)
    (wrun : WorkflowRunArgs → Except Unit Int) (fs0 : Fs)
    (h : fsLookup fs0 (exitMarkerPath fo) = none) :
    main ro fo sm wrun fs0 = mainInvoke ro fo sm wrun fs0 [] := by
  simp only [main]
  rw [h]

theorem main_eq_of_file (ro : RunOptions) (fo : FlowOptions) (sm : String)
    (wrun : WorkflowRunArgs → Except Unit Int) (fs0 : Fs) (c : String)
    (h : fsLookup fs0 (exitMarkerPath fo) = some (FsEntry.file c)) :
    main ro fo sm wrun fs0
      = mainInvoke ro fo sm wrun (fsErase fs0 (exitMarkerPath fo))
          [RunEvent.unlink (exitMarkerPath fo)] := by
  simp only [main]
  rw [h]

theorem main_eq_of_nonfile (ro : RunOptions) (fo : FlowOptions) (sm : String)
    (wrun : WorkflowRunArgs → Except Unit Int) (fs0 : Fs) (e : FsEntry)
    (h : fsLookup fs0 (exitMarkerPath fo) = some e) (hnf : e.isFile = false) :
    main ro fo sm wrun fs0 = { fs := fs0, events := [], term := .raised } := by
  simp only [main]
  rw [h]
  cases e with
  | file c => simp [FsEntry.isFile] at hnf
  | dir => rfl
  | other => rfl

/-- The exit-marker contract of the invocation tail: among the events, the
write to the exit marker path happens exactly once and carries the resolved
code followed by a newline, the final filesystem holds that content at the
marker path, and the process status is the resolved code. -/
theorem mainInvoke_spec (ro : RunOptions) (fo : FlowOptions) (sm : String)
    (wrun : WorkflowRunArgs → Except Unit Int) (fs : Fs)
    (pre : List RunEvent)
    (hpre : pre.filter (fun ev => ev.isWriteTo (exitMarkerPath fo)) = []) :
    (mainInvoke ro fo sm wrun fs pre).events.filter
        (fun ev => ev.isWriteTo (exitMarkerPath fo))
      = [RunEvent.writeFile (exitMarkerPath fo)
          (toString (mainRetval (wrun (mainArgs ro fo sm))) ++ "\n")]
    ∧ fsLookup (mainInvoke ro fo sm wrun fs pre).fs (exitMarkerPath fo)
      = some (FsEntry.file
          (toString (mainRetval (wrun (mainArgs ro fo sm))) ++ "\n"))
    ∧ (mainInvoke ro fo sm wrun fs pre).term.processStatus
      = mainRetval (wrun (mainArgs ro fo sm)) := by
  refine ⟨?_, ?_, ?_⟩
  · simp only [mainInvoke]
    rw [List.filter_append, hpre]
    simp [RunEvent.isWriteTo]
  · simp [mainInvoke, fsLookup_fsSet]
  · cases h : wrun (mainArgs ro fo sm) with
    | ok v => simp [mainInvoke, mainRetval, h, Termination.processStatus]
    | error u => simp [mainInvoke, mainRetval, h, Termination.processStatus]

/-- Sample flow options used to instantiate hypotheses of the general
theorems at concrete inputs. -/
def sampleFlowOptions : FlowOptions :=
  { runDir := "/run", workDir := "/run/workspace" }

/-- Sample resolved run options. -/
def sampleRunOptions : RunOptions :=
  { mode := "local", jobs := .i 8, memMb := .i 16384, isDryRun := true
    isQuiet := false, mailTo := none, schedulerArgList := [], resetTasks := [] }

/-- Sample engine behavior: the run call returns exit code 0. -/
def sampleWrun : WorkflowRunArgs → Except Unit Int := fun _ => Except.ok 0

/-- Sample filesystem holding a stale exit-code marker file. -/
def sampleFsWithMarker : Fs :=
  [("/run/workflow.exitcode.txt", FsEntry.file "0\n")]

/-- Sample filesystem holding a directory at the exit-code marker path. -/
def sampleFsWithDirMarker : Fs :=
  [("/run/workflow.exitcode.txt", FsEntry.dir)]

/-- C1: in the generated main, whenever the marker pre-check passes (no
non-file entry at the exit marker path), the exit-code marker is written
exactly once per execution, containing the resolved exit code followed by a
newline; when the engine call raises, the resolved code is 1; and the
process exit status equals the code just written. -/
theorem main_writes_exit_marker_once (ro : RunOptions) (fo : FlowOptions)
    (sm : String) (wrun : WorkflowRunArgs → Except Unit Int) (fs0 : Fs)
    (hfile : ∀ e, fsLookup fs0 (exitMarkerPath fo) = some e → e.isFile = true) :
    (main ro fo sm wrun fs0).events.filter
        (fun ev => ev.isWriteTo (exitMarkerPath fo))
      = [RunEvent.writeFile (exitMarkerPath fo)
          (toString (mainRetval (wrun (mainArgs ro fo sm))) ++ "\n")]
    ∧ fsLookup (main ro fo sm wrun fs0).fs (exitMarkerPath fo)
      = some (FsEntry.file
          (toString (mainRetval (wrun (mainArgs ro fo sm))) ++ "\n"))
    ∧ (main ro fo sm wrun fs0).term.processStatus
      = mainRetval (wrun (mainArgs ro fo sm))
    ∧ (∀ u, wrun (mainArgs ro fo sm) = Except.error u
        → mainRetval (wrun (mainArgs ro fo sm)) = 1) := by
  have herr : ∀ u, wrun (mainArgs ro fo sm) = Except.error u
      → mainRetval (wrun (mainArgs ro fo sm)) = 1 := by
    intro u h
    simp [mainRetval, h]
  cases hl : fsLookup fs0 (exitMarkerPath fo) with
  | none =>
      rw [main_eq_of_none ro fo sm wrun fs0 hl]
      have hs := mainInvoke_spec ro fo sm wrun fs0 [] (by rfl)
      exact ⟨hs.1, hs.2.1, hs.2.2, herr⟩
  | some e =>
      cases e with
      | file c =>
          rw [main_eq_of_file ro fo sm wrun fs0 c hl]
          have hs := mainInvoke_spec ro fo sm wrun
            (fsErase fs0 (exitMarkerPath fo))
            [RunEvent.unlink (exitMarkerPath fo)]
            (by simp [RunEvent.isWriteTo])
          exact ⟨hs.1, hs.2.1, hs.2.2, herr⟩
      | dir => exact absurd (hfile _ hl) (by simp [FsEntry.isFile])
      | other => exact absurd (hfile _ hl) (by simp [FsEntry.isFile])

/-- C1 witness: concrete instantiation of the exit-marker contract. -/
theorem main_writes_exit_marker_once_witness :
    (main sampleRunOptions sampleFlowOptions "done" sampleWrun
        sampleFsWithMarker).events.filter
        (fun ev => ev.isWriteTo (exitMarkerPath sampleFlowOptions))
      = [RunEvent.writeFile (exitMarkerPath sampleFlowOptions)
          (toString (mainRetval (sampleWrun
            (mainArgs sampleRunOptions sampleFlowOptions "done"))) ++ "\n")]
    ∧ fsLookup (main sampleRunOptions sampleFlowOptions "done" sampleWrun
          sampleFsWithMarker).fs (exitMarkerPath sampleFlowOptions)
      = some (FsEntry.file
          (toString (mainRetval (sampleWrun
            (mainArgs sampleRunOptions sampleFlowOptions "done"))) ++ "\n"))
    ∧ (main sampleRunOptions sampleFlowOptions "done" sampleWrun
          sampleFsWithMarker).term.processStatus
      = mainRetval (sampleWrun
          (mainArgs sampleRunOptions sampleFlowOptions "done"))
    ∧ (∀ u, sampleWrun (mainArgs sampleRunOptions sampleFlowOptions "done")
          = Except.error u
        → mainRetval (sampleWrun
            (mainArgs sampleRunOptions sampleFlowOptions "done")) = 1) :=
  main_writes_exit_marker_once sampleRunOptions sampleFlowOptions "done"
    sampleWrun sampleFsWithMarker (by decide)

/-- C2: the generated main checks the exit-code marker path before the
run: a stale plain file is unlinked strictly before the engine invocation
(first event unlink, then the invocation, then the terminal write), while a
non-file entry at that path makes main raise at once, leaving the
filesystem untouched, performing no deletion and no invocation. -/
theorem main_marker_precheck (ro : RunOptions) (fo : FlowOptions)
    (sm : String) (wrun : WorkflowRunArgs → Except Unit Int) (fs0 : Fs) :
    (∀ c, fsLookup fs0 (exitMarkerPath fo) = some (FsEntry.file c) →
      (main ro fo sm wrun fs0).events
        = [RunEvent.unlink (exitMarkerPath fo),
           RunEvent.invokeRun (mainArgs ro fo sm),
           RunEvent.writeFile (exitMarkerPath fo)
             (toString (mainRetval (wrun (mainArgs ro fo sm))) ++ "\n")])
    ∧ (∀ e, fsLookup fs0 (exitMarkerPath fo) = some e → e.isFile = false →
        (main ro fo sm wrun fs0).events = []
        ∧ (main ro fo sm wrun fs0).fs = fs0
        ∧ (main ro fo sm wrun fs0).term = Termination.raised) := by
  constructor
  · intro c hl
    rw [main_eq_of_file ro fo sm wrun fs0 c hl]
    simp [mainInvoke]
  · intro e hl hnf
    rw [main_eq_of_nonfile ro fo sm wrun fs0 e hl hnf]
    exact ⟨rfl, rfl, rfl⟩

/-- C2 witness: concrete stale-file and non-file-entry executions. -/
theorem main_marker_precheck_witness :
    (main sampleRunOptions sampleFlowOptions "done" sampleWrun
        sampleFsWithMarker).events
      = [RunEvent.unlink (exitMarkerPath sampleFlowOptions),
         RunEvent.invokeRun
           (mainArgs sampleRunOptions sampleFlowOptions "done"),
         RunEvent.writeFile (exitMarkerPath sampleFlowOptions)
           (toString (mainRetval (sampleWrun
             (mainArgs sampleRunOptions sampleFlowOptions "done"))) ++ "\n")]
    ∧ ((main sampleRunOptions sampleFlowOptions "done" sampleWrun
          sampleFsWithDirMarker).events = []
       ∧ (main sampleRunOptions sampleFlowOptions "done" sampleWrun
            sampleFsWithDirMarker).fs = sampleFsWithDirMarker
       ∧ (main sampleRunOptions sampleFlowOptions "done" sampleWrun
            sampleFsWithDirMarker).term = Termination.raised) :=
  ⟨(main_marker_precheck sampleRunOptions sampleFlowOptions "done" sampleWrun
      sampleFsWithMarker).1 "0\n" (by decide),
   (main_marker_precheck sampleRunOptions sampleFlowOptions "done" sampleWrun
      sampleFsWithDirMarker).2 FsEntry.dir (by decide) (by decide)⟩

/-- C4: every engine invocation performed by the generated main passes the
continuation policy literals isContinue = "Auto" and isForceContinue =
true, whatever the resolved command-line options were. -/
theorem main_forced_auto_continue (ro : RunOptions) (fo : FlowOptions)
    (sm : String) (wrun : WorkflowRunArgs → Except Unit Int) (fs0 : Fs)
    (a : WorkflowRunArgs)
    (h : RunEvent.invokeRun a ∈ (main ro fo sm wrun fs0).events) :
    a.isContinue = "Auto" ∧ a.isForceContinue = true := by
  have hargs : a = mainArgs ro fo sm := by
    cases hl : fsLookup fs0 (exitMarkerPath fo) with
    | none =>
        rw [main_eq_of_none ro fo sm wrun fs0 hl] at h
        simpa [mainInvoke] using h
    | some e =>
        cases e with
        | file c =>
            rw [main_eq_of_file ro fo sm wrun fs0 c hl] at h
            simpa [mainInvoke] using h
        | dir =>
            rw [main_eq_of_nonfile ro fo sm wrun fs0 _ hl rfl] at h
            simp at h
        | other =>
            rw [main_eq_of_nonfile ro fo sm wrun fs0 _ hl rfl] at h
            simp at h
  rw [hargs]
  exact ⟨rfl, rfl⟩

/-- C4 witness: the concrete execution invokes the engine with the forced
auto-continue policy. -/
theorem main_forced_auto_continue_witness :
    (mainArgs sampleRunOptions sampleFlowOptions "done").isContinue = "Auto"
    ∧ (mainArgs sampleRunOptions sampleFlowOptions
        "done").isForceContinue = true :=
  main_forced_auto_continue sampleRunOptions sampleFlowOptions "done"
    sampleWrun sampleFsWithMarker
    (mainArgs sampleRunOptions sampleFlowOptions "done") (by decide)

/-- C10: with the dry-run flag set, the generated main still unlinks a
stale exit-code marker before running and still writes a fresh marker on
termination; the engine is invoked with isDryRun = true but the marker
lifecycle is untouched by the flag. -/
theorem main_dryrun_marker_lifecycle (ro : RunOptions) (fo : FlowOptions)
    (sm : String) (wrun : WorkflowRunArgs → Except Unit Int) (fs0 : Fs)
    (c : String) (hdry : ro.isDryRun = true)
    (hstale : fsLookup fs0 (exitMarkerPath fo) = some (FsEntry.file c)) :
    RunEvent.unlink (exitMarkerPath fo) ∈ (main ro fo sm wrun fs0).events
    ∧ RunEvent.writeFile (exitMarkerPath fo)
        (toString (mainRetval (wrun (mainArgs ro fo sm))) ++ "\n")
        ∈ (main ro fo sm wrun fs0).events
    ∧ fsLookup (main ro fo sm wrun fs0).fs (exitMarkerPath fo)
      = some (FsEntry.file
          (toString (mainRetval (wrun (mainArgs ro fo sm))) ++ "\n"))
    ∧ (mainArgs ro fo sm).isDryRun = true := by
  rw [main_eq_of_file ro fo sm wrun fs0 c hstale]
  refine ⟨by simp [mainInvoke], by simp [mainInvoke], ?_, hdry⟩
  simp [mainInvoke, fsLookup_fsSet]

/-- C10 witness: a concrete dry-run execution over a stale marker. -/
theorem main_dryrun_marker_lifecycle_witness :
    RunEvent.unlink (exitMarkerPath sampleFlowOptions)
      ∈ (main sampleRunOptions sampleFlowOptions "done" sampleWrun
          sampleFsWithMarker).events
    ∧ RunEvent.writeFile (exitMarkerPath sampleFlowOptions)
        (toString (mainRetval (sampleWrun
          (mainArgs sampleRunOptions sampleFlowOptions "done"))) ++ "\n")
        ∈ (main sampleRunOptions sampleFlowOptions "done" sampleWrun
            sampleFsWithMarker).events
    ∧ fsLookup (main sampleRunOptions sampleFlowOptions "done" sampleWrun
          sampleFsWithMarker).fs (exitMarkerPath sampleFlowOptions)
      = some (FsEntry.file
          (toString (mainRetval (sampleWrun
            (mainArgs sampleRunOptions sampleFlowOptions "done"))) ++ "\n"))
    ∧ (mainArgs sampleRunOptions sampleFlowOptions "done").isDryRun = true :=
  main_dryrun_marker_lifecycle sampleRunOptions sampleFlowOptions "done"
    sampleWrun sampleFsWithMarker "0\n" (by decide) (by decide)

/-! ## The option resolver of the generated script (runScript2) -/

/-- The option values produced by `parser.parse_args()` before the manual
resolution steps, together with any positional (non-option) arguments. -/
structure CliArgs where
  mode : Option String
  queue : Option String
  jobs : Option String
  memGb : Option String
  isDryRun : Bool
  isQuiet : Bool
  mailTo : Option (List String)
  isRescore : Bool
  maxTaskRuntime : Option String
  positional : List String
deriving DecidableEq, Repr

deriving instance DecidableEq for Except

/-- The Resource Estimator collaborator (estimateHardware):
`getNodeHyperthreadCoreCount` and `getNodeMemMb`, each returning an int or
raising `EstException` (the error case). -/
structure Estimator where
  coreCount : Except Unit Int
  memMb : Except Unit Int
deriving DecidableEq, Repr

/-- How `get_run_options` can terminate without returning: `sys.exit(2)`
after printing help, `parser.error` (prints usage and exits with status 2),
or an uncaught ValueError from an `int(...)` conversion. -/
inductive ResolveErr
  | usageExit2
  | parserError (msg : String)
  | valueError
deriving DecidableEq, Repr

/-- Whether a resolver termination carries process exit status 2. -/
def ResolveErr.isExit2 : ResolveErr → Bool
  | .usageExit2 => true
  | .parserError _ => true
  | .valueError => false

/-- Python `int(x)` on a value that is a string or already an int. -/
def pyIntOfStrInt : StrInt → Except ResolveErr Int
  | .i v => .ok v
  | .s v =>
      match v.toInt? with
      | some n => .ok n
      | none => .error .valueError

/-- Resolution of `options.jobs` (lines 174-185 of the template): default
from the sge scheduler constant or the core-count estimate when absent,
then the "unlimited" or positive-int check. -/
def resolveJobs (sgeDefaultCores : StrInt) (est : Estimator) (mode : String)
    (jobs : Option String) : Except ResolveErr StrInt :=
  let j0 : Except ResolveErr StrInt :=
    match jobs with
    | some j => .ok (.s j)
    | none =>
        if mode = "sge" then .ok sgeDefaultCores
        else
          match est.coreCount with
          | .ok n => .ok (.i n)
          | .error _ => .error (.parserError
              "Failed to estimate cores on this node. Please provide job count argument (-j).")
  match j0 with
  | .error e => .error e
  | .ok jv =>
      if jv = .s "unlimited" then .ok jv
      else
        match pyIntOfStrInt jv with
        | .error e => .error e
        | .ok n =>
            if n ≤ 0 then .error (.parserError
                "Jobs must be \x27unlimited\x27 or an integer greater than 1")
            else .ok (.i n)

/-- Resolution of `options.memMb` (lines 188-202 of the template): sge
defaults to "unlimited", local defaults to the memory estimate; an
explicit gigabyte value other than "unlimited" must parse to a positive
int and is converted to megabytes. -/
def resolveMemMb (est : Estimator) (mode : String) (memGb : Option String) :
    Except ResolveErr StrInt :=
  match memGb with
  | none =>
      if mode = "sge" then .ok (.s "unlimited")
      else
        match est.memMb with
        | .ok n => .ok (.i n)
        | .error _ => .error (.parserError
            "Failed to estimate available memory on this node. Please provide available gigabyte argument (-g).")
  | some g =>
      if g ≠ "unlimited" then
        match g.toInt? with
        | none => .error .valueError
        | some n =>
            if n ≤ 0 then .error (.parserError
                "memGb must be \x27unlimited\x27 or an integer greater than 1")
            else .ok (.i (1024 * n))
      else .ok (.s "unlimited")

/-- The generated `get_run_options` (runScript2) after argument parsing:
discard mail addresses when no local mail relay was detected, reject
positional arguments and a missing or invalid mode, resolve the job count
and memory budget, build the scheduler argument list, and populate the
force-reset task list from the rescore flag. -/
def get_run_options (sgeDefaultCores : StrInt) (est : Estimator)
    (isEmail : Bool) (cli : CliArgs) : Except ResolveErr RunOptions :=
  let mailTo := if isEmail then cli.mailTo else none
  if cli.positional ≠ [] then .error .usageExit2
  else
    match cli.mode with
    | none => .error .usageExit2
    | some m =>
        if ¬ (m = "local" ∨ m = "sge") then
          .error (.parserError "Invalid mode. Available modes are: local, sge")
        else
          match resolveJobs sgeDefaultCores est m cli.jobs with
          | .error e => .error e
          | .ok jobs =>
              match resolveMemMb est m cli.memGb with
              | .error e => .error e
              | .ok memMb =>
                  let schedulerArgList :=
                    (match cli.queue with
                     | some q => ["-q", q]
                     | none => []) ++
                    (match cli.maxTaskRuntime with
                     | some t => ["-l", "h_rt=" ++ t]
                     | none => [])
                  let resetTasks :=
                    if cli.isRescore then ["makeHyGenDir"] else []
                  .ok { mode := m, jobs := jobs, memMb := memMb,
                        isDryRun := cli.isDryRun, isQuiet := cli.isQuiet,
                        mailTo := mailTo,
                        schedulerArgList := schedulerArgList,
                        resetTasks := resetTasks }

theorem resolveJobs_ok (sge : StrInt) (est : Estimator) (mode : String)
    (jobs : Option String) (jv : StrInt)
    (h : resolveJobs sge est mode jobs = .ok jv) :
    jv = .s "unlimited" ∨ ∃ n, jv = .i n ∧ 0 < n := by
  simp only [resolveJobs] at h
  repeat' split at h
  any_goals simp at h
  all_goals subst h
  all_goals first
    | exact Or.inl (by assumption)
    | exact Or.inl rfl
    | exact Or.inr ⟨_, rfl, by omega⟩

theorem resolveMemMb_ok (est : Estimator) (mode : String)
    (memGb : Option String) (v : StrInt)
    (hmem : ∀ n, est.memMb = Except.ok n → 0 < n)
    (h : resolveMemMb est mode memGb = .ok v) :
    v = .s "unlimited" ∨ ∃ n, v = .i n ∧ 0 < n := by
  simp only [resolveMemMb] at h
  repeat' split at h
  any_goals simp at h
  all_goals subst h
  all_goals first
    | exact Or.inl rfl
    | exact Or.inl (by assumption)
    | exact Or.inr ⟨_, rfl, hmem _ (by assumption)⟩
    | exact Or.inr ⟨_, rfl, by omega⟩

theorem get_run_options_ok_inv (sge : StrInt) (est : Estimator)
    (isEmail : Bool) (cli : CliArgs) (opts : RunOptions)
    (h : get_run_options sge est isEmail cli = .ok opts) :
    ∃ m, cli.mode = some m
      ∧ (m = "local" ∨ m = "sge")
      ∧ resolveJobs sge est m cli.jobs = .ok opts.jobs
      ∧ resolveMemMb est m cli.memGb = .ok opts.memMb
      ∧ opts.resetTasks = (if cli.isRescore then ["makeHyGenDir"] else []) := by
  simp only [get_run_options] at h
  split at h
  · simp at h
  · split at h
    · simp at h
    · rename_i m hmode
      split at h
      · simp at h
      · rename_i hm
        rw [not_not] at hm
        split at h
        · simp at h
        · rename_i jobs hjobs
          split at h
          · simp at h
          · rename_i memMb hmemb
            injection h with h
            subst h
            exact ⟨m, hmode, hm, hjobs, hmemb, rfl⟩

/-- Sample estimator reporting 8 cores and 16384 MB. -/
def sampleEstimator : Estimator :=
  { coreCount := Except.ok 8, memMb := Except.ok 16384 }

/-- Sample parsed command line: local mode, everything else defaulted,
rescore flag set. -/
def sampleCli : CliArgs :=
  { mode := some "local", queue := none, jobs := none, memGb := none,
    isDryRun := false, isQuiet := false, mailTo := none, isRescore := true,
    maxTaskRuntime := none, positional := [] }

/-- The options record `get_run_options` resolves for `sampleCli` under
`sampleEstimator`. -/
def sampleResolvedOptions : RunOptions :=
  { mode := "local", jobs := .i 8, memMb := .i 16384, isDryRun := false,
    isQuiet := false, mailTo := none, schedulerArgList := [],
    resetTasks := ["makeHyGenDir"] }

/-- C3: under the Resource Estimator contract (a returned memory estimate
is positive), every options record returned by `get_run_options` has jobs
and memMb resolved to "unlimited" or a positive integer, each obtained by
the jobs and memory resolution steps for the validated mode; and when the
estimator fails (EstException) at the point it is consulted, the resolver
terminates through `parser.error`, an exit-status-2 usage error. -/
theorem get_run_options_resolution_invariant (sge : StrInt)
    (est : Estimator) (isEmail : Bool) (cli : CliArgs)
    (hmem : ∀ n, est.memMb = Except.ok n → 0 < n) :
    (∀ opts, get_run_options sge est isEmail cli = .ok opts →
      ∃ m, cli.mode = some m ∧ (m = "local" ∨ m = "sge")
        ∧ resolveJobs sge est m cli.jobs = .ok opts.jobs
        ∧ (opts.jobs = .s "unlimited" ∨ ∃ n, opts.jobs = .i n ∧ 0 < n)
        ∧ resolveMemMb est m cli.memGb = .ok opts.memMb
        ∧ (opts.memMb = .s "unlimited" ∨ ∃ n, opts.memMb = .i n ∧ 0 < n))
    ∧ (cli.positional = [] → cli.mode = some "local" → cli.jobs = none →
        est.coreCount = Except.error () →
        ∃ msg, get_run_options sge est isEmail cli
            = .error (.parserError msg)
          ∧ (ResolveErr.parserError msg).isExit2 = true)
    ∧ (∀ jv, cli.positional = [] → cli.mode = some "local" →
        cli.memGb = none →
        resolveJobs sge est "local" cli.jobs = .ok jv →
        est.memMb = Except.error () →
        ∃ msg, get_run_options sge est isEmail cli
            = .error (.parserError msg)
          ∧ (ResolveErr.parserError msg).isExit2 = true) := by
  refine ⟨?_, ?_, ?_⟩
  · intro opts h
    obtain ⟨m, hmode, hm, hjobs, hmemb, _⟩ :=
      get_run_options_ok_inv sge est isEmail cli opts h
    exact ⟨m, hmode, hm, hjobs,
      resolveJobs_ok sge est m cli.jobs opts.jobs hjobs, hmemb,
      resolveMemMb_ok est m cli.memGb opts.memMb hmem hmemb⟩
  · intro hpos hmode hjobs hcore
    refine ⟨"Failed to estimate cores on this node. Please provide job count argument (-j).", ?_, rfl⟩
    simp [get_run_options, resolveJobs, hpos, hmode, hjobs, hcore]
  · intro jv hpos hmode hmemGb hjobs hmemb
    refine ⟨"Failed to estimate available memory on this node. Please provide available gigabyte argument (-g).", ?_, rfl⟩
    simp [get_run_options, resolveMemMb, hpos, hmode, hmemGb, hjobs, hmemb]

/-- C3 witness: with the sample estimator and a local-mode command line
with no explicit jobs or memory, the resolution invariant holds at a
concrete input. -/
theorem get_run_options_resolution_invariant_witness :
    (∀ opts, get_run_options (.i 4) sampleEstimator false sampleCli
        = .ok opts →
      ∃ m, sampleCli.mode = some m ∧ (m = "local" ∨ m = "sge")
        ∧ resolveJobs (.i 4) sampleEstimator m sampleCli.jobs = .ok opts.jobs
        ∧ (opts.jobs = .s "unlimited" ∨ ∃ n, opts.jobs = .i n ∧ 0 < n)
        ∧ resolveMemMb sampleEstimator m sampleCli.memGb = .ok opts.memMb
        ∧ (opts.memMb = .s "unlimited" ∨ ∃ n, opts.memMb = .i n ∧ 0 < n))
    ∧ (sampleCli.positional = [] → sampleCli.mode = some "local" →
        sampleCli.jobs = none →
        sampleEstimator.coreCount = Except.error () →
        ∃ msg, get_run_options (.i 4) sampleEstimator false sampleCli
            = .error (.parserError msg)
          ∧ (ResolveErr.parserError msg).isExit2 = true)
    ∧ (∀ jv, sampleCli.positional = [] → sampleCli.mode = some "local" →
        sampleCli.memGb = none →
        resolveJobs (.i 4) sampleEstimator "local" sampleCli.jobs
          = .ok jv →
        sampleEstimator.memMb = Except.error () →
        ∃ msg, get_run_options (.i 4) sampleEstimator false sampleCli
            = .error (.parserError msg)
          ∧ (ResolveErr.parserError msg).isExit2 = true) :=
  get_run_options_resolution_invariant (.i 4) sampleEstimator false
    sampleCli (by intro n hn; injection hn with hn; omega)

/-- C6: a returned options record has force-reset task list exactly
["makeHyGenDir"] when the rescore flag was passed and exactly the empty
list otherwise. -/
theorem get_run_options_rescore_resetTasks (sge : StrInt) (est : Estimator)
    (isEmail : Bool) (cli : CliArgs) (opts : RunOptions)
    (h : get_run_options sge est isEmail cli = .ok opts) :
    opts.resetTasks = (if cli.isRescore then ["makeHyGenDir"] else [])
    ∧ (opts.resetTasks = ["makeHyGenDir"] ↔ cli.isRescore = true) := by
  obtain ⟨m, _, _, _, _, hr⟩ := get_run_options_ok_inv sge est isEmail cli opts h
  refine ⟨hr, ?_⟩
  cases hcr : cli.isRescore <;> simp [hr, hcr]

/-- C6 witness: the sample rescore invocation resolves with force-reset
task list ["makeHyGenDir"]. -/
theorem get_run_options_rescore_resetTasks_witness :
    sampleResolvedOptions.resetTasks
      = (if sampleCli.isRescore then ["makeHyGenDir"] else [])
    ∧ (sampleResolvedOptions.resetTasks = ["makeHyGenDir"]
        ↔ sampleCli.isRescore = true) :=
  get_run_options_rescore_resetTasks (.i 4) sampleEstimator false sampleCli
    sampleResolvedOptions (by decide)

/-! ## The driver script generator (makeRunScript) -/

/-- posixpath.dirname: the path up to the final slash, with trailing
slashes stripped unless the head is all slashes. -/
def dirname (p : String) : String :=
  let cs := p.toList
  let tailLen := (cs.reverse.takeWhile (fun c => c ≠ '/')).length
  let head := cs.take (cs.length - tailLen)
  if head.all (fun c => c = '/') then String.mk head
  else String.mk (head.reverse.dropWhile (fun c => c = '/')).reverse

/-- posixpath.basename: the segment after the final slash. -/
def basename (p : String) : String :=
  String.mk (p.toList.reverse.takeWhile (fun c => c ≠ '/')).reverse

/-- os.path.abspath restricted to already-normalized inputs: an absolute
path is returned unchanged, a relative one is joined to the working
directory. -/
def abspath (cwd p : String) : String :=
  if strStartsWith p "/" then p else pathJoin cwd p

/-- Strip the fixed ".py" source suffix from a module file name
(`workflowModuleName[:-len(pyExt)]` when the name ends with it). -/
def stripPyExt (name : String) : String :=
  if strEndsWith name ".py" then
    String.mk (name.toList.take (name.toList.length - 3))
  else name

/-- The header segment of the generated script: the value of the Python format expression substituting interpreter, generating command line, module directory, module name and class name into the runScript1 template (a doubled percent sign renders as a literal one). -/
def runScript1Text (pythonBin cmdline moduleDir moduleName className : String) : String :=
  "#!"
    ++ pythonBin
    ++ "\n# Workflow run script auto-generated by command: \x27"
    ++ cmdline
    ++ "\x27\n#\n\nimport os, sys\n\nif sys.version_info >= (3,0):\n    import platform\n    raise Exception(\"Strelka does not currently support python3 (version %s detected)\" % (platform.python_version()))\n\nif sys.version_info < (2,6):\n    import platform\n    raise Exception(\"Strelka requires python2 version 2.6+ (version %s detected)\" % (platform.python_version()))\n\nscriptDir=os.path.abspath(os.path.dirname(__file__))\nsys.path.append(r\x27"
    ++ moduleDir
    ++ "\x27)\n\nfrom "
    ++ moduleName
    ++ " import "
    ++ className
    ++ "\n\n"

/-- The constant runScript2 template segment: the option resolver source text embedded verbatim in the generated script. -/
def runScript2Template : String :=
  "\ndef get_run_options(workflowClassName) :\n\n    from optparse import OptionGroup, SUPPRESS_HELP\n\n    from configBuildTimeInfo import workflowVersion\n    from configureUtil import EpilogOptionParser\n    from estimateHardware import EstException, getNodeHyperthreadCoreCount, getNodeMemMb\n\n    sgeDefaultCores=workflowClassName.runModeDefaultCores(\x27sge\x27)\n\n    epilog=\"\"\"Note this script can be re-run to continue the workflow run in case of interruption.\nAlso note that dryRun option has limited utility when task definition depends on upstream task\nresults -- in this case the dry run will not cover the full \x27live\x27 run task set.\"\"\"\n\n    parser = EpilogOptionParser(description=\"Version: %s\" % (workflowVersion), epilog=epilog, version=workflowVersion)\n\n\n    parser.add_option(\"-m\", \"--mode\", type=\"string\",dest=\"mode\",\n                      help=\"select run mode (local|sge)\")\n    parser.add_option(\"-q\", \"--queue\", type=\"string\",dest=\"queue\",\n                      help=\"specify scheduler queue name\")\n    parser.add_option(\"-j\", \"--jobs\", type=\"string\",dest=\"jobs\",\n                  help=\"number of jobs, must be an integer or \x27unlimited\x27 (default: Estimate total cores on this node for local mode, %s for sge mode)\" % (sgeDefaultCores))\n    parser.add_option(\"-g\",\"--memGb\", type=\"string\",dest=\"memGb\",\n                  help=\"gigabytes of memory available to run workflow -- only meaningful in local mode, must be an integer (default: Estimate the total memory for this node for local mode, \x27unlimited\x27 for sge mode)\")\n    parser.add_option(\"-d\",\"--dryRun\", dest=\"isDryRun\",action=\"store_true\",default=False,\n                      help=\"dryRun workflow code without actually running command-tasks\")\n    parser.add_option(\"--quiet\", dest=\"isQuiet\",action=\"store_true\",default=False,\n                      help=\"Don\x27t write any log output to stderr (but still write to workspace/pyflow.data/logs/pyflow_log.txt)\")\n\n    def isLocalSmtp() :\n        import smtplib\n        try :\n            smtplib.SMTP(\x27localhost\x27)\n        except :\n            return False\n        return True\n\n    isEmail = isLocalSmtp()\n    emailHelp = SUPPRESS_HELP\n    if isEmail :\n        emailHelp=\"send email notification of job completion status to this address (may be provided multiple times for more than one email address)\"\n\n    parser.add_option(\"-e\",\"--mailTo\", type=\"string\",dest=\"mailTo\",action=\"append\",help=emailHelp)\n\n    debug_group = OptionGroup(parser,\"development debug options\")\n    debug_group.add_option(\"--rescore\", dest=\"isRescore\",action=\"store_true\",default=False,\n                          help=\"Reset task list to re-run hypothesis generation and scoring without resetting graph generation.\")\n\n    parser.add_option_group(debug_group)\n\n    ext_group = OptionGroup(parser,\"extended portability options (should not be needed by most users)\")\n    ext_group.add_option(\"--maxTaskRuntime\", type=\"string\", metavar=\"hh:mm:ss\",\n                      help=\"Specify scheduler max runtime per task, argument is provided to the \x27h_rt\x27 resource limit if using SGE (no default)\")\n\n    parser.add_option_group(ext_group)\n\n    (options,args) = parser.parse_args()\n\n    if not isEmail : options.mailTo = None\n\n    if len(args) :\n        parser.print_help()\n        sys.exit(2)\n\n    if options.mode is None :\n        parser.print_help()\n        sys.exit(2)\n    elif options.mode not in [\"local\",\"sge\"] :\n        parser.error(\"Invalid mode. Available modes are: local, sge\")\n\n    if options.jobs is None :\n        if options.mode == \"sge\" :\n            options.jobs = sgeDefaultCores\n        else :\n            try :\n                options.jobs = getNodeHyperthreadCoreCount()\n            except EstException:\n                parser.error(\"Failed to estimate cores on this node. Please provide job count argument (-j).\")\n    if options.jobs != \"unlimited\" :\n        options.jobs=int(options.jobs)\n        if options.jobs <= 0 :\n            parser.error(\"Jobs must be \x27unlimited\x27 or an integer greater than 1\")\n\n    # note that the user sees gigs, but we set megs\n    if options.memGb is None :\n        if options.mode == \"sge\" :\n            options.memMb = \"unlimited\"\n        else :\n            try :\n                options.memMb = getNodeMemMb()\n            except EstException:\n                parser.error(\"Failed to estimate available memory on this node. Please provide available gigabyte argument (-g).\")\n    elif options.memGb != \"unlimited\" :\n        options.memGb=int(options.memGb)\n        if options.memGb <= 0 :\n            parser.error(\"memGb must be \x27unlimited\x27 or an integer greater than 1\")\n        options.memMb = 1024*options.memGb\n    else :\n        options.memMb = options.memGb\n\n    options.schedulerArgList=[]\n    if options.queue is not None :\n        options.schedulerArgList.extend([\"-q\",options.queue])\n    if options.maxTaskRuntime is not None :\n        options.schedulerArgList.extend([\"-l\",\"h_rt=\"+options.maxTaskRuntime])\n\n    options.resetTasks=[]\n    if options.isRescore :\n        options.resetTasks.append(\"makeHyGenDir\")\n\n    return options\n"

/-- The constant runScript3 template segment: the main controller source text embedded verbatim in the generated script. -/
def runScript3Template : String :=
  "\ndef main(pickleConfigFile, primaryConfigSection, workflowClassName) :\n    from configureUtil import getConfigWithPrimaryOptions\n\n    runOptions=get_run_options(workflowClassName)\n    flowOptions,configSections=getConfigWithPrimaryOptions(pickleConfigFile,primaryConfigSection)\n\n    # new logs and marker files to assist automated workflow monitoring:\n    warningpath=os.path.join(flowOptions.runDir,\"workflow.warning.log.txt\")\n    errorpath=os.path.join(flowOptions.runDir,\"workflow.error.log.txt\")\n    exitpath=os.path.join(flowOptions.runDir,\"workflow.exitcode.txt\")\n\n    # the exit path should only exist once the workflow completes:\n    if os.path.exists(exitpath) :\n        if not os.path.isfile(exitpath) :\n            raise Exception(\"Unexpected filesystem item: \x27%s\x27\" % (exitpath))\n        os.unlink(exitpath)\n\n    wflow = workflowClassName(flowOptions)\n\n    retval=1\n    try:\n        retval=wflow.run(mode=runOptions.mode,\n                         nCores=runOptions.jobs,\n                         memMb=runOptions.memMb,\n                         dataDirRoot=flowOptions.workDir,\n                         mailTo=runOptions.mailTo,\n                         isContinue=\"Auto\",\n                         isForceContinue=True,\n                         isDryRun=runOptions.isDryRun,\n                         isQuiet=runOptions.isQuiet,\n                         schedulerArgList=runOptions.schedulerArgList,\n                         resetTasks=runOptions.resetTasks,\n                         successMsg=wflow.getSuccessMessage(),\n                         warningLogFile=warningpath,\n                         errorLogFile=errorpath)\n    finally:\n        exitfp=open(exitpath,\"w\")\n        exitfp.write(\"%i\\n\" % (retval))\n        exitfp.close()\n\n    sys.exit(retval)\n"

/-- The final line written into the generated script:
`main(r"<pickleConfigFile>","<primaryConfigSection>",<workflowClassName>)`
followed by a newline. -/
def mainCallLine (pickleConfigFile primaryConfigSection workflowClassName :
    String) : String :=
  "main(r\"" ++ pickleConfigFile ++ "\",\"" ++ primaryConfigSection ++ "\","
    ++ workflowClassName ++ ")\n"

/-- The full content written to the generated script file, in write order:
header, blank line, resolver segment, blank line, controller segment,
blank line, the main call line, final blank line. -/
def scriptContent (pythonBin cmdline moduleDir moduleName className
    pickleConfigFile primaryConfigSection : String) : String :=
  runScript1Text pythonBin cmdline moduleDir moduleName className
    ++ "\n" ++ runScript2Template ++ "\n" ++ runScript3Template ++ "\n"
    ++ mainCallLine pickleConfigFile primaryConfigSection className ++ "\n"

/-- Configuration sections: a mapping from section name to key-value
pairs. -/
abbrev ConfigSections : Type := List (String × List (String × String))

/-- Modelled from the spec: `pickleConfigSections` (module configureUtil,
the Config Store collaborator, whose code is not part of this slice)
persists the bundle in a self-contained serialized form to the destination
file.  The serialization format is opaque to this core, so an arbitrary
concrete injective encoding stands in for it. -/
def pickleRepr (cs : ConfigSections) : String := toString (repr cs)

/-- Externally visible events of one `makeRunScript` call. -/
inductive MakeEvent
  | writeFile (path : String) (content : String)
  | chmod (path : String) (mode : Nat)
deriving DecidableEq, Repr

/-- The failure shapes of `makeRunScript`: a failed precondition assert,
or opening a directory path for writing. -/
inductive MakeErr
  | assertionError
  | isADirectoryError (path : String)
deriving DecidableEq, Repr

/-- Whether a directory entry exists at `p`. -/
def isDirAt (fs : Fs) (p : String) : Bool :=
  match fsLookup fs p with
  | some FsEntry.dir => true
  | _ => false

/-- Whether a plain file exists at `p` (`os.path.isfile`). -/
def isFileAt (fs : Fs) (p : String) : Bool :=
  match fsLookup fs p with
  | some (FsEntry.file _) => true
  | _ => false

/-- Opening a path for writing ("w"): fails on a directory, otherwise
creates or truncates-and-replaces the entry with the new content. -/
def fsWriteFile (fs : Fs) (p : String) (content : String) :
    Except MakeErr Fs :=
  match fsLookup fs p with
  | some FsEntry.dir => .error (.isADirectoryError p)
  | _ => .ok (fsSet fs p (.file content))

structure MakeResult where
  fs : Fs
  events : List MakeEvent
  err : Option MakeErr
deriving DecidableEq, Repr

/-- The body of `makeRunScript` after its two asserts have passed: derive
the module directory and importable module name from the absolute module
path, persist the configuration bundle at scriptFile ++ ".config.pickle",
write the composed script text to scriptFile, and chmod it to 0o755. -/
def makeRunScriptChecked (cwd : String) (argv : List String) (fs0 : Fs)
    (scriptFile workflowModulePath workflowClassName
      primaryConfigSection : String)
    (configSections : ConfigSections) (pythonBin : Option String) :
    MakeResult :=
  let workflowModulePathAbs := abspath cwd workflowModulePath
  let workflowModuleDir := dirname workflowModulePathAbs
  let workflowModuleName := stripPyExt (basename workflowModulePathAbs)
  let pickleConfigFile := scriptFile ++ ".config.pickle"
  match fsWriteFile fs0 pickleConfigFile (pickleRepr configSections) with
  | .error e => { fs := fs0, events := [], err := some e }
  | .ok fs1 =>
      let pb := pythonBin.getD "/usr/bin/env python2"
      let content := scriptContent pb (String.intercalate " " argv)
        workflowModuleDir workflowModuleName workflowClassName
        pickleConfigFile primaryConfigSection
      match fsWriteFile fs1 scriptFile content with
      | .error e =>
          { fs := fs1,
            events := [.writeFile pickleConfigFile (pickleRepr configSections)],
            err := some e }
      | .ok fs2 =>
          { fs := fs2,
            events := [.writeFile pickleConfigFile (pickleRepr configSections),
                       .writeFile scriptFile content,
                       .chmod scriptFile 0o755],
            err := none }

/-- `makeRunScript`: assert that the parent directory of the target script
exists and that the workflow module path is an existing file, then
generate the two artifacts.  A failed assert raises before any write. -/
def makeRunScript (cwd : String) (argv : List String) (fs0 : Fs)
    (scriptFile workflowModulePath workflowClassName
      primaryConfigSection : String)
    (configSections : ConfigSections) (pythonBin : Option String) :
    MakeResult :=
  if isDirAt fs0 (dirname scriptFile)
      && isFileAt fs0 (abspath cwd workflowModulePath) then
    makeRunScriptChecked cwd argv fs0 scriptFile workflowModulePath
      workflowClassName primaryConfigSection configSections pythonBin
  else { fs := fs0, events := [], err := some .assertionError }

theorem fsLookup_fsErase_ne (fs : Fs) (p q : String) (h : p ≠ q) :
    fsLookup (fsErase fs p) q = fsLookup fs q := by
  induction fs with
  | nil => rfl
  | cons hd tl ih =>
      obtain ⟨r, e⟩ := hd
      by_cases hr : r = p
      · subst hr
        simp [fsErase, fsLookup, ih, h]
      · simp [fsErase, fsLookup, hr]
        by_cases hq : r = q <;> simp [hq, ih]

theorem fsLookup_fsSet_ne (fs : Fs) (p q : String) (e : FsEntry)
    (h : p ≠ q) : fsLookup (fsSet fs p e) q = fsLookup fs q := by
  simp [fsSet, fsLookup, h, fsLookup_fsErase_ne fs p q h]

theorem ne_append_config (s : String) : s ≠ s ++ ".config.pickle" := by
  intro h
  have h2 := congrArg String.length h
  have h3 : (".config.pickle" : String).length = 14 := rfl
  rw [String.length_append, h3] at h2
  omega

theorem fsWriteFile_of_file (fs : Fs) (p : String) (a content : String)
    (h : fsLookup fs p = some (FsEntry.file a)) :
    fsWriteFile fs p content = .ok (fsSet fs p (.file content)) := by
  unfold fsWriteFile
  rw [h]

theorem makeRunScript_eq_checked (cwd : String) (argv : List String)
    (fs0 : Fs) (sf wmp wcn pcs : String) (cs : ConfigSections)
    (pb : Option String)
    (hc : (isDirAt fs0 (dirname sf)
            && isFileAt fs0 (abspath cwd wmp)) = true) :
    makeRunScript cwd argv fs0 sf wmp wcn pcs cs pb
      = makeRunScriptChecked cwd argv fs0 sf wmp wcn pcs cs pb := by
  simp [makeRunScript, hc]

theorem makeRunScriptChecked_eq (cwd : String) (argv : List String)
    (fs0 fs1 fs2 : Fs) (sf wmp wcn pcs : String) (cs : ConfigSections)
    (pb : Option String)
    (hw1 : fsWriteFile fs0 (sf ++ ".config.pickle") (pickleRepr cs)
      = .ok fs1)
    (hw2 : fsWriteFile fs1 sf
        (scriptContent (pb.getD "/usr/bin/env python2")
          (String.intercalate " " argv) (dirname (abspath cwd wmp))
          (stripPyExt (basename (abspath cwd wmp))) wcn
          (sf ++ ".config.pickle") pcs)
      = .ok fs2) :
    makeRunScriptChecked cwd argv fs0 sf wmp wcn pcs cs pb
      = { fs := fs2,
          events := [.writeFile (sf ++ ".config.pickle") (pickleRepr cs),
                     .writeFile sf
                       (scriptContent (pb.getD "/usr/bin/env python2")
                         (String.intercalate " " argv)
                         (dirname (abspath cwd wmp))
                         (stripPyExt (basename (abspath cwd wmp))) wcn
                         (sf ++ ".config.pickle") pcs),
                     .chmod sf 0o755],
          err := none } := by
  simp only [makeRunScriptChecked]
  rw [hw1]
  dsimp only
  rw [hw2]


theorem makeRunScriptChecked_eq_werr1 (cwd : String) (argv : List String)
    (fs0 : Fs) (sf wmp wcn pcs : String) (cs : ConfigSections)
    (pb : Option String) (e : MakeErr)
    (hw : fsWriteFile fs0 (sf ++ ".config.pickle") (pickleRepr cs)
      = .error e) :
    makeRunScriptChecked cwd argv fs0 sf wmp wcn pcs cs pb
      = { fs := fs0, events := [], err := some e } := by
  simp only [makeRunScriptChecked]
  rw [hw]

theorem makeRunScriptChecked_eq_werr2 (cwd : String) (argv : List String)
    (fs0 fs1 : Fs) (sf wmp wcn pcs : String) (cs : ConfigSections)
    (pb : Option String) (e : MakeErr)
    (hw1 : fsWriteFile fs0 (sf ++ ".config.pickle") (pickleRepr cs)
      = .ok fs1)
    (hw2 : fsWriteFile fs1 sf
        (scriptContent (pb.getD "/usr/bin/env python2")
          (String.intercalate " " argv) (dirname (abspath cwd wmp))
          (stripPyExt (basename (abspath cwd wmp))) wcn
          (sf ++ ".config.pickle") pcs)
      = .error e) :
    makeRunScriptChecked cwd argv fs0 sf wmp wcn pcs cs pb
      = { fs := fs1,
          events := [.writeFile (sf ++ ".config.pickle") (pickleRepr cs)],
          err := some e } := by
  simp only [makeRunScriptChecked]
  rw [hw1]
  dsimp only
  rw [hw2]

/-- If `makeRunScript` returns without error, its result is the success
shape: both artifact writes succeeded and the events are exactly the
pickle write, the script write, and the chmod to 0o755. -/
theorem makeRunScript_err_none_inv (cwd : String) (argv : List String)
    (fs0 : Fs) (sf wmp wcn pcs : String) (cs : ConfigSections)
    (pb : Option String)
    (h : (makeRunScript cwd argv fs0 sf wmp wcn pcs cs pb).err = none) :
    ∃ fs1 fs2,
      fsWriteFile fs0 (sf ++ ".config.pickle") (pickleRepr cs) = .ok fs1
      ∧ fsWriteFile fs1 sf
          (scriptContent (pb.getD "/usr/bin/env python2")
            (String.intercalate " " argv) (dirname (abspath cwd wmp))
            (stripPyExt (basename (abspath cwd wmp))) wcn
            (sf ++ ".config.pickle") pcs)
        = .ok fs2
      ∧ makeRunScript cwd argv fs0 sf wmp wcn pcs cs pb
        = { fs := fs2,
            events := [.writeFile (sf ++ ".config.pickle") (pickleRepr cs),
                       .writeFile sf
                         (scriptContent (pb.getD "/usr/bin/env python2")
                           (String.intercalate " " argv)
                           (dirname (abspath cwd wmp))
                           (stripPyExt (basename (abspath cwd wmp))) wcn
                           (sf ++ ".config.pickle") pcs),
                       .chmod sf 0o755],
            err := none } := by
  by_cases hc : (isDirAt fs0 (dirname sf)
      && isFileAt fs0 (abspath cwd wmp)) = true
  · have hMain := makeRunScript_eq_checked cwd argv fs0 sf wmp wcn pcs cs pb hc
    cases hw1 : fsWriteFile fs0 (sf ++ ".config.pickle") (pickleRepr cs) with
    | error e =>
        rw [hMain,
          makeRunScriptChecked_eq_werr1 cwd argv fs0 sf wmp wcn pcs cs pb e hw1] at h
        exact Option.noConfusion h
    | ok fs1 =>
        cases hw2 : fsWriteFile fs1 sf
            (scriptContent (pb.getD "/usr/bin/env python2")
              (String.intercalate " " argv) (dirname (abspath cwd wmp))
              (stripPyExt (basename (abspath cwd wmp))) wcn
              (sf ++ ".config.pickle") pcs) with
        | error e =>
            rw [hMain,
              makeRunScriptChecked_eq_werr2 cwd argv fs0 fs1 sf wmp wcn pcs cs pb e hw1 hw2] at h
            exact Option.noConfusion h
        | ok fs2 =>
            refine ⟨fs1, fs2, rfl, hw2, ?_⟩
            rw [hMain,
              makeRunScriptChecked_eq cwd argv fs0 fs1 fs2 sf wmp wcn pcs cs pb hw1 hw2]
  · have hAss : makeRunScript cwd argv fs0 sf wmp wcn pcs cs pb
        = { fs := fs0, events := [], err := some .assertionError } := by
      simp [makeRunScript, hc]
    rw [hAss] at h
    exact Option.noConfusion h

/-- C7: when the parent directory of the target script path is not an
existing directory, or the workflow module path is not an existing file,
makeRunScript stops at its asserts: no event is emitted, the filesystem is
unchanged (so neither the script file nor the pickle artifact is created),
and the result is the assertion failure. -/
theorem makeRunScript_precondition_failure (cwd : String)
    (argv : List String) (fs0 : Fs) (sf wmp wcn pcs : String)
    (cs : ConfigSections) (pb : Option String)
    (h : isDirAt fs0 (dirname sf) = false
       ∨ isFileAt fs0 (abspath cwd wmp) = false) :
    makeRunScript cwd argv fs0 sf wmp wcn pcs cs pb
      = { fs := fs0, events := [], err := some .assertionError } := by
  rcases h with h | h <;> simp [makeRunScript, h]

/-- C7 witness: empty filesystem, so the target directory is missing. -/
theorem makeRunScript_precondition_failure_witness :
    makeRunScript "/cwd" ["configure"] [] "/out/runWorkflow.py"
        "/src/wf.py" "W" "primary" [] none
      = { fs := [], events := [], err := some .assertionError } :=
  makeRunScript_precondition_failure "/cwd" ["configure"] []
    "/out/runWorkflow.py" "/src/wf.py" "W" "primary" [] none
    (Or.inl (by decide))

/-- C8: with the preconditions satisfied and plain files already present
at both target paths, makeRunScript succeeds and both artifacts hold the
newly generated contents: regeneration replaces them without error. -/
theorem makeRunScript_overwrites (cwd : String) (argv : List String)
    (fs0 : Fs) (sf wmp wcn pcs : String) (cs : ConfigSections)
    (pb : Option String) (a b : String)
    (hdir : isDirAt fs0 (dirname sf) = true)
    (hmod : isFileAt fs0 (abspath cwd wmp) = true)
    (hsf : fsLookup fs0 sf = some (FsEntry.file a))
    (hpk : fsLookup fs0 (sf ++ ".config.pickle") = some (FsEntry.file b)) :
    (makeRunScript cwd argv fs0 sf wmp wcn pcs cs pb).err = none
    ∧ fsLookup (makeRunScript cwd argv fs0 sf wmp wcn pcs cs pb).fs
        (sf ++ ".config.pickle") = some (FsEntry.file (pickleRepr cs))
    ∧ fsLookup (makeRunScript cwd argv fs0 sf wmp wcn pcs cs pb).fs sf
        = some (FsEntry.file
            (scriptContent (pb.getD "/usr/bin/env python2")
              (String.intercalate " " argv) (dirname (abspath cwd wmp))
              (stripPyExt (basename (abspath cwd wmp))) wcn
              (sf ++ ".config.pickle") pcs)) := by
  have hne := ne_append_config sf
  have hw1 := fsWriteFile_of_file fs0 (sf ++ ".config.pickle") b
    (pickleRepr cs) hpk
  have hsf1 : fsLookup (fsSet fs0 (sf ++ ".config.pickle")
      (.file (pickleRepr cs))) sf = some (FsEntry.file a) := by
    rw [fsLookup_fsSet_ne fs0 (sf ++ ".config.pickle") sf _ (Ne.symm hne)]
    exact hsf
  have hw2 := fsWriteFile_of_file
    (fsSet fs0 (sf ++ ".config.pickle") (.file (pickleRepr cs))) sf a
    (scriptContent (pb.getD "/usr/bin/env python2")
      (String.intercalate " " argv) (dirname (abspath cwd wmp))
      (stripPyExt (basename (abspath cwd wmp))) wcn
      (sf ++ ".config.pickle") pcs) hsf1
  have heq := makeRunScriptChecked_eq cwd argv fs0 _ _ sf wmp wcn pcs cs pb
    hw1 hw2
  rw [makeRunScript_eq_checked cwd argv fs0 sf wmp wcn pcs cs pb
    (by rw [hdir, hmod]; rfl), heq]
  refine ⟨rfl, ?_, ?_⟩
  · rw [fsLookup_fsSet_ne _ sf (sf ++ ".config.pickle") _ hne]
    exact fsLookup_fsSet fs0 (sf ++ ".config.pickle") _
  · exact fsLookup_fsSet _ sf _


/-- Sample filesystem for the generator: target directory, workflow module
file, and stale artifacts from an earlier generation at both target
paths. -/
def sampleGenFs : Fs :=
  [("/out", FsEntry.dir),
   ("/src/wf.py", FsEntry.file "class W(object):\n    pass\n"),
   ("/out/runWorkflow.py", FsEntry.file "old"),
   ("/out/runWorkflow.py.config.pickle", FsEntry.file "oldpickle")]

/-- C8 witness: regenerating over the stale artifacts replaces both
without error. -/
theorem makeRunScript_overwrites_witness :
    (makeRunScript "/cwd" ["configure"] sampleGenFs "/out/runWorkflow.py"
        "/src/wf.py" "W" "primary" [] none).err = none
    ∧ fsLookup (makeRunScript "/cwd" ["configure"] sampleGenFs
          "/out/runWorkflow.py" "/src/wf.py" "W" "primary" [] none).fs
        ("/out/runWorkflow.py" ++ ".config.pickle")
      = some (FsEntry.file (pickleRepr []))
    ∧ fsLookup (makeRunScript "/cwd" ["configure"] sampleGenFs
          "/out/runWorkflow.py" "/src/wf.py" "W" "primary" [] none).fs
        "/out/runWorkflow.py"
      = some (FsEntry.file
          (scriptContent ((none : Option String).getD "/usr/bin/env python2")
            (String.intercalate " " ["configure"])
            (dirname (abspath "/cwd" "/src/wf.py"))
            (stripPyExt (basename (abspath "/cwd" "/src/wf.py"))) "W"
            ("/out/runWorkflow.py" ++ ".config.pickle") "primary")) :=
  makeRunScript_overwrites "/cwd" ["configure"] sampleGenFs
    "/out/runWorkflow.py" "/src/wf.py" "W" "primary" [] none
    "old" "oldpickle" (by decide) (by decide) (by decide) (by decide)

/-- Owner-execute permission bit of a mode. -/
def modeOwnerExec (m : Nat) : Bool := m &&& 0o100 != 0

/-- Group-read permission bit of a mode. -/
def modeGroupRead (m : Nat) : Bool := m &&& 0o040 != 0

/-- Group-write permission bit of a mode. -/
def modeGroupWrite (m : Nat) : Bool := m &&& 0o020 != 0

/-- Group-execute permission bit of a mode. -/
def modeGroupExec (m : Nat) : Bool := m &&& 0o010 != 0

/-- Other-read permission bit of a mode. -/
def modeOtherRead (m : Nat) : Bool := m &&& 0o004 != 0

/-- Other-write permission bit of a mode. -/
def modeOtherWrite (m : Nat) : Bool := m &&& 0o002 != 0

/-- Other-execute permission bit of a mode. -/
def modeOtherExec (m : Nat) : Bool := m &&& 0o001 != 0

/-- The permission shape asserted by the spec for the generated script:
executable by owner; readable but neither writable nor executable by group
and by other. -/
def claimedScriptMode (m : Nat) : Bool :=
  modeOwnerExec m && modeGroupRead m && !modeGroupWrite m
    && !modeGroupExec m && modeOtherRead m && !modeOtherWrite m
    && !modeOtherExec m

/-- The permission shape the code actually sets (0o755): executable by
owner; readable and executable but not writable by group and by other. -/
def actualScriptMode (m : Nat) : Bool :=
  modeOwnerExec m && modeGroupRead m && !modeGroupWrite m
    && modeGroupExec m && modeOtherRead m && !modeOtherWrite m
    && modeOtherExec m

/-- C5 counterexample: a successful concrete generation chmods the script
to mode 0o755, and that mode fails the spec predicate (its group-execute
and other-execute bits are set, where the spec asserts non-executability
for group and other). -/
theorem makeRunScript_mode_claim_counterexample :
    (makeRunScript "/cwd" ["configure"] sampleGenFs "/out/runWorkflow.py"
        "/src/wf.py" "W" "primary" [] none).err = none
    ∧ MakeEvent.chmod "/out/runWorkflow.py" 0o755
        ∈ (makeRunScript "/cwd" ["configure"] sampleGenFs
            "/out/runWorkflow.py" "/src/wf.py" "W" "primary" [] none).events
    ∧ claimedScriptMode 0o755 = false := by
  refine ⟨by decide, by decide, by decide⟩

/-- C5 amended: after makeRunScript succeeds, the one chmod it performed
set the generated script file to mode 0o755 — executable by its owner,
and readable and executable but non-writable by group and other. -/
theorem makeRunScript_chmod_0755 (cwd : String) (argv : List String)
    (fs0 : Fs) (sf wmp wcn pcs : String) (cs : ConfigSections)
    (pb : Option String)
    (h : (makeRunScript cwd argv fs0 sf wmp wcn pcs cs pb).err = none) :
    MakeEvent.chmod sf 0o755
      ∈ (makeRunScript cwd argv fs0 sf wmp wcn pcs cs pb).events
    ∧ (∀ p m, MakeEvent.chmod p m
        ∈ (makeRunScript cwd argv fs0 sf wmp wcn pcs cs pb).events →
        p = sf ∧ m = 0o755)
    ∧ actualScriptMode 0o755 = true := by
  obtain ⟨fs1, fs2, hw1, hw2, heq⟩ :=
    makeRunScript_err_none_inv cwd argv fs0 sf wmp wcn pcs cs pb h
  rw [heq]
  refine ⟨by simp, ?_, by decide⟩
  intro p m hm
  simpa using hm

/-- C5 amended witness: the concrete generation performs the 0o755
chmod. -/
theorem makeRunScript_chmod_0755_witness :
    MakeEvent.chmod "/out/runWorkflow.py" 0o755
      ∈ (makeRunScript "/cwd" ["configure"] sampleGenFs
          "/out/runWorkflow.py" "/src/wf.py" "W" "primary" [] none).events
    ∧ (∀ p m, MakeEvent.chmod p m
        ∈ (makeRunScript "/cwd" ["configure"] sampleGenFs
            "/out/runWorkflow.py" "/src/wf.py" "W" "primary" [] none).events →
        p = "/out/runWorkflow.py" ∧ m = 0o755)
    ∧ actualScriptMode 0o755 = true :=
  makeRunScript_chmod_0755 "/cwd" ["configure"] sampleGenFs
    "/out/runWorkflow.py" "/src/wf.py" "W" "primary" [] none (by decide)


/-! ## Training-set construction in evs_learn -/

/-- A row of a labeled feature CSV as far as the training-set construction
inspects it: the "tag" column and the "weight" column that getDataSet
assigns. -/
structure EvsRow where
  tag : String
  weight : Int
deriving DecidableEq, Repr

/-- Weight applied to admixture inputs (the constant 1 in the source). -/
def admixWeight : Int := 1

/-- Weight applied to normal-normal inputs (the constant 1 in the
source). -/
def nnWeight : Int := 1

/-- Python `needle in haystack` on strings. -/
def strContains (hay needle : String) : Bool :=
  hay.toList.tails.any (fun t => needle.toList.isPrefixOf t)

/-- Processing of one input file in getDataSet: drop rows tagged "FN"
first, then optionally subsample `sample_input` rows, then optionally
balance the TP and FP row counts by downsampling the larger side, then
assign the weight column (1, overridden by the admix or normal-normal
constants when the file name contains the corresponding marker).
`sampler` abstracts `random.sample` over data-frame rows. -/
def getDataSetOne (sampler : List EvsRow → Int → List EvsRow)
    (sample_input : Int) (balance_per_sample : Bool)
    (inputFile : String) (rows : List EvsRow) : List EvsRow :=
  let df1 := rows.filter (fun r => r.tag != "FN")
  let df2 := if sample_input ≠ 0 then
      sampler df1 (min (df1.length : Int) sample_input)
    else df1
  let df3 := if balance_per_sample then
      let tps := df2.filter (fun r => r.tag == "TP")
      let fps := df2.filter (fun r => r.tag == "FP")
      if tps.length < fps.length then
        tps ++ sampler fps (tps.length : Int)
      else if fps.length < tps.length then
        sampler tps (fps.length : Int) ++ fps
      else tps ++ fps
    else df2
  let w := if strContains inputFile "NN" then nnWeight
    else if strContains inputFile "Admix" then admixWeight
    else 1
  df3.map (fun r => { r with weight := w })

/-- getDataSet: process every input file (by its absolute path) and
concatenate the per-file datasets.  `readCsv` abstracts
`pandas.read_csv`. -/
def getDataSet (cwd : String) (readCsv : String → List EvsRow)
    (sampler : List EvsRow → Int → List EvsRow)
    (inputs : List String) (sample_input : Int)
    (balance_per_sample : Bool) : List EvsRow :=
  (inputs.map (fun f =>
    getDataSetOne sampler sample_input balance_per_sample (abspath cwd f)
      (readCsv (abspath cwd f)))).flatten

/-- The TP and FP training frames selected by evs_learn main from the
combined dataset: plain tag filters unless overall balancing is requested
without per-sample balancing, in which case both sides are subsampled to
the common minimum count. -/
def trainSelect (sampler : List EvsRow → Int → List EvsRow)
    (balance_overall balance_per_sample : Bool)
    (dataset : List EvsRow) : List EvsRow × List EvsRow :=
  if ¬ balance_overall ∨ balance_per_sample then
    (dataset.filter (fun r => r.tag == "TP"),
     dataset.filter (fun r => r.tag == "FP"))
  else
    let tpdata2 := dataset.filter (fun r => r.tag == "TP")
    let fpdata2 := dataset.filter (fun r => r.tag == "FP")
    let nrows := min tpdata2.length fpdata2.length
    (sampler tpdata2 (nrows : Int), sampler fpdata2 (nrows : Int))

/-- The training-set soundness predicate: no row of the list carries the
false-negative tag. -/
def noFN (l : List EvsRow) : Prop := ∀ r ∈ l, r.tag ≠ "FN"

theorem noFN_filter_ne (rows : List EvsRow) :
    noFN (rows.filter (fun r => r.tag != "FN")) := by
  intro r hr
  have h := (List.mem_filter.mp hr).2
  simpa using h

theorem noFN_filter (l : List EvsRow) (p : EvsRow → Bool) (h : noFN l) :
    noFN (l.filter p) :=
  fun r hr => h r (List.mem_filter.mp hr).1

theorem noFN_append (a b : List EvsRow) (ha : noFN a) (hb : noFN b) :
    noFN (a ++ b) := by
  intro r hr
  rcases List.mem_append.mp hr with h | h
  exacts [ha r h, hb r h]

theorem noFN_sampler (sampler : List EvsRow → Int → List EvsRow)
    (hs : ∀ l n r, r ∈ sampler l n → r ∈ l) (l : List EvsRow) (n : Int)
    (h : noFN l) : noFN (sampler l n) :=
  fun r hr => h r (hs l n r hr)

theorem getDataSetOne_noFN (sampler : List EvsRow → Int → List EvsRow)
    (hs : ∀ l n r, r ∈ sampler l n → r ∈ l)
    (sample_input : Int) (balance_per_sample : Bool)
    (inputFile : String) (rows : List EvsRow) :
    noFN (getDataSetOne sampler sample_input balance_per_sample
      inputFile rows) := by
  have h1 := noFN_filter_ne rows
  have h2 : noFN (if sample_input ≠ 0 then
      sampler (rows.filter (fun r => r.tag != "FN"))
        (min ((rows.filter (fun r => r.tag != "FN")).length : Int)
          sample_input)
    else rows.filter (fun r => r.tag != "FN")) := by
    split
    · exact noFN_sampler sampler hs _ _ h1
    · exact h1
  intro r hr
  simp only [getDataSetOne] at hr
  obtain ⟨r0, hr0, hre⟩ := List.mem_map.mp hr
  have htag : r.tag = r0.tag := by rw [← hre]
  rw [htag]
  revert hr0
  split
  · intro hr0
    set dfX := if sample_input ≠ 0 then
        sampler (rows.filter (fun r => r.tag != "FN"))
          (min ((rows.filter (fun r => r.tag != "FN")).length : Int)
            sample_input)
      else rows.filter (fun r => r.tag != "FN") with hdfX
    have htp := noFN_filter dfX (fun r => r.tag == "TP") h2
    have hfp := noFN_filter dfX (fun r => r.tag == "FP") h2
    revert hr0
    split
    · intro hr0
      exact noFN_append _ _ htp (noFN_sampler sampler hs _ _ hfp) r0 hr0
    · split
      · intro hr0
        exact noFN_append _ _ (noFN_sampler sampler hs _ _ htp) hfp r0 hr0
      · intro hr0
        exact noFN_append _ _ htp hfp r0 hr0
  · intro hr0
    exact h2 r0 hr0

/-- C9: false-negative-tagged rows are dropped from every input before any
subsampling or balancing, so — for every combination of the subsample
count and the two balancing flags, and for any subset-respecting sampler —
no FN row is in the combined dataset nor in either selected training
frame. -/
theorem evs_learn_no_false_negatives (cwd : String)
    (readCsv : String → List EvsRow)
    (sampler : List EvsRow → Int → List EvsRow)
    (inputs : List String) (sample_input : Int)
    (balance_overall balance_per_sample : Bool)
    (hs : ∀ l n r, r ∈ sampler l n → r ∈ l) :
    noFN (getDataSet cwd readCsv sampler inputs sample_input
      balance_per_sample)
    ∧ noFN (trainSelect sampler balance_overall balance_per_sample
        (getDataSet cwd readCsv sampler inputs sample_input
          balance_per_sample)).1
    ∧ noFN (trainSelect sampler balance_overall balance_per_sample
        (getDataSet cwd readCsv sampler inputs sample_input
          balance_per_sample)).2 := by
  have hds : noFN (getDataSet cwd readCsv sampler inputs sample_input
      balance_per_sample) := by
    intro r hr
    simp only [getDataSet] at hr
    obtain ⟨l, hl, hrl⟩ := List.mem_flatten.mp hr
    obtain ⟨f, _, hfe⟩ := List.mem_map.mp hl
    rw [← hfe] at hrl
    exact getDataSetOne_noFN sampler hs sample_input balance_per_sample
      (abspath cwd f) (readCsv (abspath cwd f)) r hrl
  refine ⟨hds, ?_, ?_⟩ <;> unfold trainSelect <;> split
  · exact noFN_filter _ _ hds
  · exact noFN_sampler sampler hs _ _ (noFN_filter _ _ hds)
  · exact noFN_filter _ _ hds
  · exact noFN_sampler sampler hs _ _ (noFN_filter _ _ hds)

/-- C9 witness: a concrete input containing an FN row, with take-based
subsampling, yields FN-free dataset and training frames. -/
theorem evs_learn_no_false_negatives_witness :
    noFN (getDataSet "/cwd"
      (fun _ => [{ tag := "TP", weight := 1 }, { tag := "FN", weight := 1 },
                 { tag := "FP", weight := 1 }])
      (fun l n => l.take n.toNat) ["/data/a.csv"] 0 false)
    ∧ noFN (trainSelect (fun l n => l.take n.toNat) false false
        (getDataSet "/cwd"
          (fun _ => [{ tag := "TP", weight := 1 },
                     { tag := "FN", weight := 1 },
                     { tag := "FP", weight := 1 }])
          (fun l n => l.take n.toNat) ["/data/a.csv"] 0 false)).1
    ∧ noFN (trainSelect (fun l n => l.take n.toNat) false false
        (getDataSet "/cwd"
          (fun _ => [{ tag := "TP", weight := 1 },
                     { tag := "FN", weight := 1 },
                     { tag := "FP", weight := 1 }])
          (fun l n => l.take n.toNat) ["/data/a.csv"] 0 false)).2 :=
  evs_learn_no_false_negatives "/cwd"
    (fun _ => [{ tag := "TP", weight := 1 }, { tag := "FN", weight := 1 },
               { tag := "FP", weight := 1 }])
    (fun l n => l.take n.toNat) ["/data/a.csv"] 0 false false
    (fun _ _ _ h => List.mem_of_mem_take h)

end Strelka
